import Mathlib

/-!
Verification of the gbfs-node specification against a shallow embedding of
the repository. The repository's `src/types.ts` is pure schema: every type
below in the `GBFS` namespace up to `SystemAlertsFile` is translated directly
from it. The behavioural components the specification describes (Validator,
SnapshotStore, FeedScheduler, CrossFeedLinker) have no source under `src/`;
they are modelled from the specification text, each marked
`Modelled from the spec:` in its doc comment.
-/

namespace GBFS

/-- Model of `StringID` from src/types.ts line 6: ID fields are strings. -/
abbrev StringID := String

/-- Model of `Timestamp` from src/types.ts line 8: integer POSIX time. -/
abbrev Timestamp := Int

/-- Model of `URL` from src/types.ts line 11. -/
abbrev GbfsURL := String

/-- Model of the `Bit` enum from src/types.ts lines 13-16 (values 1 and 0). -/
inductive Bit where
  | one
  | zero
deriving DecidableEq

/-- Numeric value of a `Bit`, as in the TypeScript enum. -/
def Bit.toInt : Bit → Int
  | .one => 1
  | .zero => 0

/-- Model of the `FeedType` enum from src/types.ts lines 18-28. -/
inductive FeedType where
  | systemInformation
  | stationInformation
  | stationStatus
  | freeBikeStatus
  | systemHours
  | systemCalendar
  | systemRegions
  | systemPricingPlans
  | systemAlerts
deriving DecidableEq

/-- String value of each `FeedType` member, from src/types.ts lines 18-28. -/
def FeedType.name : FeedType → String
  | .systemInformation => "system_information"
  | .stationInformation => "station_information"
  | .stationStatus => "station_status"
  | .freeBikeStatus => "free_bike_status"
  | .systemHours => "system_hours"
  | .systemCalendar => "system_calendar"
  | .systemRegions => "system_regions"
  | .systemPricingPlans => "system_pricing_plans"
  | .systemAlerts => "system_alerts"

/-- The nine feed kinds, in declaration order of src/types.ts. -/
def allFeedTypes : List FeedType :=
  [.systemInformation, .stationInformation, .stationStatus, .freeBikeStatus,
   .systemHours, .systemCalendar, .systemRegions, .systemPricingPlans,
   .systemAlerts]

/-- Model of `Feed` from src/types.ts lines 30-35. -/
structure Feed where
  name : FeedType
  url : String
deriving DecidableEq

/-- Model of `LanguageData` from src/types.ts lines 37-40. -/
structure LanguageData where
  feeds : List Feed
deriving DecidableEq

/-- Model of `AutoDiscoveryData` from src/types.ts lines 42-46: an index
signature mapping each language tag to a `LanguageData`, embedded as an
association list. -/
abbrev AutoDiscoveryData := List (String × LanguageData)

/-- Model of `SystemInformationData` from src/types.ts lines 48-83. Raw
numeric and enum fields stay in their wire representation; optional fields
are `Option`. -/
structure SystemInformationData where
  system_id : String
  language : String
  name : String
  short_name : Option String
  operator : Option String
  url : Option String
  purchase_url : Option String
  start_date : Option String
  phone_number : Option String
  email : Option String
  timezone : String
  license_url : Option String
deriving DecidableEq

/-- Model of the `RentalMethod` enum values from src/types.ts lines 85-95. -/
def rentalMethodStrings : List String :=
  ["KEY", "CREDITCARD", "PAYPASS", "APPLEPAY", "ANDROIDPAY", "TRANSITCARD",
   "ACCOUNTNUMBER", "PHONE"]

/-- Model of `StationInformation` from src/types.ts lines 97-128.
Coordinates are decimal degrees, embedded as rationals; `rental_methods`
carries raw strings that validation checks against `rentalMethodStrings`. -/
structure StationInformation where
  station_id : String
  name : String
  short_name : Option String
  lat : Rat
  lon : Rat
  address : Option String
  cross_street : Option String
  region_id : Option String
  post_code : Option String
  rental_methods : Option (List String)
  capacity : Option Int
deriving DecidableEq

/-- Model of `StationInformationData` from src/types.ts lines 130-133. -/
structure StationInformationData where
  stations : List StationInformation
deriving DecidableEq

/-- Model of `StationStatus` from src/types.ts lines 135-161. The 1/0
boolean fields arrive as raw integers; validation restricts them to
the `Bit` values 0 and 1. -/
structure StationStatus where
  station_id : String
  num_bikes_available : Int
  num_bikes_disabled : Option Int
  num_docks_available : Int
  num_docks_disabled : Option Int
  is_installed : Int
  is_renting : Int
  is_returning : Int
  last_reported : Int
deriving DecidableEq

/-- Model of `StationStatusData` from src/types.ts lines 163-166. -/
structure StationStatusData where
  stations : List StationStatus
deriving DecidableEq

/-- Model of `BikeStatus` from src/types.ts lines 168-183. -/
structure BikeStatus where
  bike_id : String
  lat : Rat
  lon : Rat
  is_reserved : Int
  is_disabled : Int
deriving DecidableEq

/-- Model of `FreeBikeStatusData` from src/types.ts lines 186-189. -/
structure FreeBikeStatusData where
  bikes : List BikeStatus
deriving DecidableEq

/-- Model of the `UserType` enum values from src/types.ts lines 191-194. -/
def userTypeStrings : List String := ["member", "nonmember"]

/-- Model of the `Day` enum values from src/types.ts lines 196-204. -/
def dayStrings : List String := ["mon", "tue", "wed", "thu", "fri", "sat", "sun"]

/-- Model of `SystemHours` from src/types.ts lines 206-219. `user_types` and
`days` carry raw strings that validation checks against the enum sets. -/
structure SystemHours where
  user_types : List String
  days : List String
  start_time : String
  end_time : String
deriving DecidableEq

/-- Model of `SystemHoursData` from src/types.ts lines 222-227. -/
structure SystemHoursData where
  rental_hours : List SystemHours
deriving DecidableEq

/-- Model of `SystemCalendar` from src/types.ts lines 229-242. -/
structure SystemCalendar where
  start_month : Int
  start_day : Int
  start_year : Option Int
  end_month : Int
  end_day : Int
  end_year : Option Int
deriving DecidableEq

/-- Model of `SystemCalendarData` from src/types.ts lines 247-252. -/
structure SystemCalendarData where
  calendars : List SystemCalendar
deriving DecidableEq

/-- Model of `SystemRegion` from src/types.ts lines 254-259. -/
structure SystemRegion where
  region_id : String
  name : String
deriving DecidableEq

/-- Model of `SystemRegionsData` from src/types.ts lines 261-264. -/
structure SystemRegionsData where
  regions : List SystemRegion
deriving DecidableEq

/-- Model of `PricingPlan` from src/types.ts lines 266-288. -/
structure PricingPlan where
  plan_id : String
  url : Option String
  name : String
  currency : String
  price : Rat
  is_taxable : Int
  description : String
deriving DecidableEq

/-- Model of `SystemPricingPlansData` from src/types.ts lines 290-293. -/
structure SystemPricingPlansData where
  plans : List PricingPlan
deriving DecidableEq

/-- Model of the `AlertType` enum values from src/types.ts lines 295-300. -/
def alertTypeStrings : List String :=
  ["SYSTEM_CLOSURE", "STATION_CLOSURE", "STATION_MOVE", "OTHER"]

/-- Model of `AlertTime` from src/types.ts lines 302-308; `end` is a Lean
keyword so the optional end timestamp is named `end_`. -/
structure AlertTime where
  start : Int
  end_ : Option Int
deriving DecidableEq

/-- Model of `SystemAlert` from src/types.ts lines 310-334; the `type`
field carries the raw string checked against `alertTypeStrings`. -/
structure SystemAlert where
  alert_id : String
  type : String
  times : Option (List AlertTime)
  station_ids : Option (List String)
  region_ids : Option (List String)
  url : Option String
  summary : String
  description : Option String
  last_updated : Option Int
deriving DecidableEq

/-- Model of `SystemAlertsData` from src/types.ts lines 340-343. -/
structure SystemAlertsData where
  alerts : List SystemAlert
deriving DecidableEq

/-- Model of `File<T>` from src/types.ts lines 347-355: the common envelope
carried by every feed body. -/
structure File (T : Type) where
  last_updated : Int
  ttl : Int
  data : T

/-- Model of the `AutoDiscoveryFile` alias from src/types.ts line 357. -/
abbrev AutoDiscoveryFile := File AutoDiscoveryData

/-- Model of the `StationStatusFile` alias from src/types.ts line 360. -/
abbrev StationStatusFile := File StationStatusData

/-- Modelled from the spec: the raw per-feed payload handed from FeedFetcher
to the Validator (spec sections 4.2-4.3); the Validator source is not under
src/, so the payload is a tagged union over the nine data shapes of
src/types.ts. -/
inductive RawPayload where
  | systemInformation (d : SystemInformationData)
  | stationInformation (d : StationInformationData)
  | stationStatus (d : StationStatusData)
  | freeBikeStatus (d : FreeBikeStatusData)
  | systemHours (d : SystemHoursData)
  | systemCalendar (d : SystemCalendarData)
  | systemRegions (d : SystemRegionsData)
  | systemPricingPlans (d : SystemPricingPlansData)
  | systemAlerts (d : SystemAlertsData)
deriving DecidableEq

/-- Feed kind a raw payload belongs to. -/
def RawPayload.feedType : RawPayload → FeedType
  | .systemInformation _ => .systemInformation
  | .stationInformation _ => .stationInformation
  | .stationStatus _ => .stationStatus
  | .freeBikeStatus _ => .freeBikeStatus
  | .systemHours _ => .systemHours
  | .systemCalendar _ => .systemCalendar
  | .systemRegions _ => .systemRegions
  | .systemPricingPlans _ => .systemPricingPlans
  | .systemAlerts _ => .systemAlerts

/-- Record identifiers of a payload: the id of each record in the feed's
own array (system_information holds a single record). -/
def RawPayload.ids : RawPayload → List String
  | .systemInformation d => [d.system_id]
  | .stationInformation d => d.stations.map (fun s => s.station_id)
  | .stationStatus d => d.stations.map (fun s => s.station_id)
  | .freeBikeStatus d => d.bikes.map (fun b => b.bike_id)
  | .systemHours _ => []
  | .systemCalendar _ => []
  | .systemRegions d => d.regions.map (fun r => r.region_id)
  | .systemPricingPlans d => d.plans.map (fun p => p.plan_id)
  | .systemAlerts d => d.alerts.map (fun a => a.alert_id)

/-- Modelled from the spec: the Validator violation taxonomy (spec section
4.3); the Validator source is not under src/. -/
inductive Violation where
  | wrongFeedType (expected actual : FeedType)
  | duplicateId (id : String)
  | invalidEnum (field : String) (value : String)
  | bitOutOfRange (field : String) (value : Int)
  | latOutOfRange (value : Rat)
  | lonOutOfRange (value : Rat)
  | duplicateHoursPair (day userType : String)
  | invalidTimeRange (startTime endTime : Int)
  | missingOptionalField (field : String)
deriving DecidableEq

/-- Modelled from the spec: violation severity (spec section 4.3): hard —
id collision, invalid enum, out-of-range value — rejects the snapshot;
soft — missing optional field — is accepted with a warning. -/
def Violation.isHard : Violation → Bool
  | .missingOptionalField _ => Bool.false
  | _ => Bool.true

/-- Elements of a list that occur more than once (each listed once). -/
def dups {α : Type} [DecidableEq α] (l : List α) : List α :=
  (l.filter (fun a => decide (1 < l.count a))).dedup

/-- Bit-field domain check: the raw value must be 0 or 1. -/
def checkBit (field : String) (v : Int) : List Violation :=
  if v = 0 ∨ v = 1 then [] else [.bitOutOfRange field v]

/-- Latitude domain check: the value must lie in [-90, 90]. -/
def checkLat (v : Rat) : List Violation :=
  if -90 ≤ v ∧ v ≤ 90 then [] else [.latOutOfRange v]

/-- Longitude domain check: the value must lie in [-180, 180]. -/
def checkLon (v : Rat) : List Violation :=
  if -180 ≤ v ∧ v ≤ 180 then [] else [.lonOutOfRange v]

/-- Enum-membership domain check against a declared literal set. -/
def checkEnum (field : String) (allowed : List String) (v : String) :
    List Violation :=
  if v ∈ allowed then [] else [.invalidEnum field v]

/-- Duplicate-id violations for one feed array. -/
def dupIdViolations (ids : List String) : List Violation :=
  (dups ids).map .duplicateId

/-- The (day, user_type) pairs one rental_hours entry covers. -/
def entryPairs (h : SystemHours) : List (String × String) :=
  h.days.flatMap (fun d => h.user_types.map (fun u => (d, u)))

/-- All (day, user_type) pairs covered across a whole rental_hours array. -/
def allHoursPairs (hs : List SystemHours) : List (String × String) :=
  hs.flatMap entryPairs

/-- Modelled from the spec: the Validator's domain checks for each feed type
(spec section 4.3); the Validator source is not under src/. Checks id
uniqueness within the feed's array, bit fields, coordinate ranges, enum
membership, the cumulative (day, user_type) coverage of rental_hours, and
alert time ranges, collecting every violation. -/
def validateData : RawPayload → List Violation
  | .systemInformation _ => []
  | .stationInformation d =>
      dupIdViolations (d.stations.map (fun s => s.station_id))
      ++ d.stations.flatMap (fun s =>
           checkLat s.lat ++ checkLon s.lon
           ++ (match s.rental_methods with
               | none => []
               | some ms => ms.flatMap (checkEnum "rental_methods" rentalMethodStrings)))
  | .stationStatus d =>
      dupIdViolations (d.stations.map (fun s => s.station_id))
      ++ d.stations.flatMap (fun s =>
           checkBit "is_installed" s.is_installed
           ++ checkBit "is_renting" s.is_renting
           ++ checkBit "is_returning" s.is_returning)
  | .freeBikeStatus d =>
      dupIdViolations (d.bikes.map (fun b => b.bike_id))
      ++ d.bikes.flatMap (fun b =>
           checkLat b.lat ++ checkLon b.lon
           ++ checkBit "is_reserved" b.is_reserved
           ++ checkBit "is_disabled" b.is_disabled)
  | .systemHours d =>
      d.rental_hours.flatMap (fun h =>
        h.user_types.flatMap (checkEnum "user_types" userTypeStrings)
        ++ h.days.flatMap (checkEnum "days" dayStrings))
      ++ (dups (allHoursPairs d.rental_hours)).map
           (fun p => .duplicateHoursPair p.1 p.2)
  | .systemCalendar _ => []
  | .systemRegions d =>
      dupIdViolations (d.regions.map (fun r => r.region_id))
  | .systemPricingPlans d =>
      dupIdViolations (d.plans.map (fun p => p.plan_id))
      ++ d.plans.flatMap (fun p => checkBit "is_taxable" p.is_taxable)
  | .systemAlerts d =>
      dupIdViolations (d.alerts.map (fun a => a.alert_id))
      ++ d.alerts.flatMap (fun a =>
           checkEnum "type" alertTypeStrings a.type
           ++ (match a.times with
               | none => []
               | some ts => ts.flatMap (fun t =>
                   match t.end_ with
                   | none => []
                   | some e => if t.start ≤ e then [] else [.invalidTimeRange t.start e])))

/-- Modelled from the spec: `validate(feedType, raw)` (spec section 4.3);
the Validator source is not under src/. The structural check that the raw
body matches the requested feed kind precedes the domain checks. -/
def validate (ft : FeedType) (raw : RawPayload) : List Violation :=
  if raw.feedType = ft then validateData raw
  else [.wrongFeedType ft raw.feedType]

/-- A validation outcome is accepted when it carries no hard violation. -/
def accepted (ft : FeedType) (raw : RawPayload) : Bool :=
  ((validate ft raw).filter Violation.isHard).isEmpty

/-- Modelled from the spec: `validate`'s overall result — the validated
data on acceptance, otherwise the collected violations (spec section 4.3). -/
def validateResult (ft : FeedType) (raw : RawPayload) :
    Except (List Violation) RawPayload :=
  if accepted ft raw then .ok raw else .error (validate ft raw)

/-- Modelled from the spec: `FeedEnvelope` (spec section 3) — one instance
per successful fetch, carrying the wire envelope plus `fetched_at`; the
FeedFetcher source is not under src/. -/
structure FeedEnvelope where
  last_updated : Int
  ttl : Int
  data : RawPayload
  fetched_at : Int
deriving DecidableEq

/-- Modelled from the spec: the per-feed `Snapshot` held by SnapshotStore
(spec section 3) — envelope fields, validated data and the dangling
reference count metadata; the SnapshotStore source is not under src/. -/
structure Snapshot where
  last_updated : Int
  ttl : Int
  fetched_at : Int
  data : RawPayload
  danglingReferenceCount : Nat
deriving DecidableEq

/-- Snapshot freshly built from an accepted envelope. -/
def Snapshot.ofEnvelope (env : FeedEnvelope) : Snapshot :=
  ⟨env.last_updated, env.ttl, env.fetched_at, env.data, 0⟩

/-- Modelled from the spec: the outcome of one fetch attempt for a feed
(spec sections 4.2 and 4.4) — either a transient fetch/parse failure or a
raw envelope to validate. -/
inductive CycleEvent where
  | fetchFailure
  | fetchSuccess (env : FeedEnvelope)
deriving DecidableEq

/-- Modelled from the spec: anomalies logged by the store — a `last_updated`
decrease is logged but never crashes the system (spec section 3). -/
inductive Anomaly where
  | lastUpdatedDecreased (prev incoming : Int)
deriving DecidableEq

/-- Result of one refresh cycle for one feed: the (possibly retained)
snapshot, logged anomalies and the collected violations. -/
structure StepResult where
  snapshot : Option Snapshot
  anomalies : List Anomaly
  violations : List Violation
deriving DecidableEq

/-- Modelled from the spec: one fetch-validate-publish cycle against
SnapshotStore (spec sections 3, 4.6 and 7); the SnapshotStore and
FeedScheduler sources are not under src/. A fetch failure or a hard
validation violation retains the previous snapshot unchanged; an accepted
envelope whose `last_updated` decreases is logged as an anomaly and the
previous snapshot is retained, keeping the exposed `last_updated`
monotone; otherwise the new snapshot atomically replaces the old. -/
def feedStep (ft : FeedType) (cur : Option Snapshot) (e : CycleEvent) :
    StepResult :=
  match e with
  | .fetchFailure => ⟨cur, [], []⟩
  | .fetchSuccess env =>
    if accepted ft env.data then
      match cur with
      | none => ⟨some (Snapshot.ofEnvelope env), [], validate ft env.data⟩
      | some snap =>
        if env.last_updated < snap.last_updated then
          ⟨some snap, [.lastUpdatedDecreased snap.last_updated env.last_updated],
           validate ft env.data⟩
        else ⟨some (Snapshot.ofEnvelope env), [], validate ft env.data⟩
    else ⟨cur, [], validate ft env.data⟩

/-- Iterated refresh cycles: the snapshot exposed after a sequence of
cycle events. -/
def feedRun (ft : FeedType) (cur : Option Snapshot) :
    List CycleEvent → Option Snapshot
  | [] => cur
  | e :: es => feedRun ft (feedStep ft cur e).snapshot es

/-- Modelled from the spec: the FeedScheduler's next-fetch rule (spec
sections 3 and 4.4); the FeedScheduler source is not under src/. The next
fetch is scheduled at `fetched_at + ttl`. -/
def nextFetchTime (fetchedAt ttl : Int) : Int := fetchedAt + ttl

/-- Wait imposed by the scheduler after a cycle that completed at
`fetched_at`. -/
def waitAfterCycle (fetchedAt ttl : Int) : Int :=
  nextFetchTime fetchedAt ttl - fetchedAt

/-- Modelled from the spec: the SnapshotStore's per-feed-type map (spec
section 4.6); the SnapshotStore source is not under src/. -/
abbrev Store := FeedType → Option Snapshot

/-- Modelled from the spec: the ids a payload mentions that the given
defining feed should define (spec section 4.5 — ids mentioned in
status/alert/plan records). station_status records and alert station_ids
reference station_information; station_information region_id fields and
alert region_ids reference system_regions. Plan and the remaining records
carry no cross-feed ids in the src/types.ts schema, so they contribute
none. -/
def refsTo : FeedType → RawPayload → List String
  | .stationInformation, .stationStatus d =>
      d.stations.map (fun s => s.station_id)
  | .stationInformation, .systemAlerts d =>
      d.alerts.flatMap (fun a => a.station_ids.getD [])
  | .systemRegions, .stationInformation d =>
      d.stations.filterMap (fun s => s.region_id)
  | .systemRegions, .systemAlerts d =>
      d.alerts.flatMap (fun a => a.region_ids.getD [])
  | _, _ => []

/-- The ids a defining feed's payload defines: station_information defines
station ids, system_regions defines region ids. -/
def definedIdsOf : FeedType → RawPayload → List String
  | .stationInformation, .stationInformation d =>
      d.stations.map (fun s => s.station_id)
  | .systemRegions, .systemRegions d =>
      d.regions.map (fun r => r.region_id)
  | _, _ => []

/-- Ids in `refs` that are absent from `defined`. -/
def missingRefs (refs defined : List String) : List String :=
  refs.filter (fun id => decide (id ∉ defined))

/-- Modelled from the spec: a payload's dangling references against one
defining feed (spec section 4.5); the CrossFeedLinker source is not under
src/. References are checked only when the defining feed has been fetched
at least once; otherwise the count is 0. -/
def danglingAgainst (store : Store) (defining : FeedType)
    (p : RawPayload) : Nat :=
  match store defining with
  | none => 0
  | some dsnap => (missingRefs (refsTo defining p) (definedIdsOf defining dsnap.data)).length

/-- Modelled from the spec: CrossFeedLinker's dangling-reference count for
one feed (spec sections 4.5 and 3) — the references its payload mentions
that are absent from each defining feed's current snapshot; the
CrossFeedLinker source is not under src/. Both feeds must have been
fetched at least once for a pair to contribute. -/
def danglingCount (store : Store) (ft : FeedType) : Nat :=
  match store ft with
  | none => 0
  | some snap =>
      danglingAgainst store .stationInformation snap.data +
      danglingAgainst store .systemRegions snap.data

/-- Modelled from the spec: CrossFeedLinker (spec section 4.5); the
CrossFeedLinker source is not under src/. Recomputes dangling references
and publishes the count as Snapshot metadata, leaving every published
snapshot's data and envelope untouched — it never rejects or blocks
publication. -/
def crossFeedLink (store : Store) : Store :=
  fun ft =>
    (store ft).map (fun s => { s with danglingReferenceCount := danglingCount store ft })

/-- Number of rental_hours entries that cover a given (day, user_type)
pair. -/
def entriesCovering (hs : List SystemHours) (p : String × String) : Nat :=
  (hs.filter (fun h => decide (p ∈ entryPairs h))).length

/-- Whether a string contains the space character. -/
def containsSpace (s : String) : Bool := s.data.contains ' '

/-- Sample station_status record with a given id and in-range fields. -/
def sampleStationStatus (id : String) : StationStatus :=
  ⟨id, 3, none, 2, none, 1, 1, 0, 50⟩

/-- Scenario payload from the spec: a station_status body with two entries
both carrying station_id "A". -/
def dupStationPayload : RawPayload :=
  .stationStatus ⟨[sampleStationStatus "A", sampleStationStatus "A"]⟩

/-- Envelope carrying the duplicate-id scenario payload. -/
def dupStationEnvelope : FeedEnvelope := ⟨100, 60, dupStationPayload, 100⟩

/-- Valid station_status payload with two distinct ids. -/
def okStationPayload : RawPayload :=
  .stationStatus ⟨[sampleStationStatus "A", sampleStationStatus "B"]⟩

/-- Envelope carrying the valid station_status payload. -/
def okStationEnvelope : FeedEnvelope := ⟨100, 60, okStationPayload, 110⟩

/-- Snapshot built from the valid station_status payload. -/
def sampleSnapshot : Snapshot := ⟨100, 60, 110, okStationPayload, 0⟩

/-- Snapshot with a later last_updated, for the monotonicity scenario. -/
def lateSnapshot : Snapshot := ⟨200, 60, 210, okStationPayload, 0⟩

/-- In-range station_information record. -/
def okInfoStation : StationInformation :=
  ⟨"I1", "Main St", none, 45, -122, none, none, none, none,
   some ["KEY", "CREDITCARD"], some 10⟩

/-- Valid station_information payload with one in-range station. -/
def okInfoPayload : RawPayload := .stationInformation ⟨[okInfoStation]⟩

/-- In-range free_bike_status record. -/
def okBike : BikeStatus := ⟨"B1", -45, 122, 0, 1⟩

/-- Valid free_bike_status payload with one in-range bike. -/
def okBikePayload : RawPayload := .freeBikeStatus ⟨[okBike]⟩

/-- Valid pricing plan record. -/
def okPlan : PricingPlan := ⟨"P1", none, "Single Ride", "USD", 2, 1, "One trip"⟩

/-- Valid system_pricing_plans payload with one plan. -/
def okPlansPayload : RawPayload := .systemPricingPlans ⟨[okPlan]⟩

/-- Valid system_hours payload covering (mon, member) once. -/
def okHoursData : SystemHoursData :=
  ⟨[⟨["member"], ["mon"], "00:00:00", "12:00:00"⟩]⟩

/-- System_hours payload in which two different entries both cover
(mon, member). -/
def dupHoursData : SystemHoursData :=
  ⟨[⟨["member"], ["mon"], "00:00:00", "12:00:00"⟩,
    ⟨["member", "nonmember"], ["mon", "tue"], "12:00:00", "23:00:00"⟩]⟩

/-- Station_status payload referencing station "S1". -/
def statusS1Payload : RawPayload := .stationStatus ⟨[sampleStationStatus "S1"]⟩

/-- Station_information payload defining no stations. -/
def infoEmptyPayload : RawPayload := .stationInformation ⟨[]⟩

/-- Snapshot of the status feed referencing "S1". -/
def statusSnapshotS1 : Snapshot := ⟨100, 60, 100, statusS1Payload, 0⟩

/-- Snapshot of an empty station_information feed. -/
def infoSnapshotEmpty : Snapshot := ⟨100, 60, 100, infoEmptyPayload, 0⟩

/-- Alert referencing region "R9". -/
def alertR9 : SystemAlert :=
  ⟨"AL1", "OTHER", none, none, some ["R9"], none, "Region closure", none, none⟩

/-- System_alerts payload referencing region "R9". -/
def alertsR9Payload : RawPayload := .systemAlerts ⟨[alertR9]⟩

/-- Snapshot of the alerts feed referencing "R9". -/
def alertsSnapshotR9 : Snapshot := ⟨100, 60, 100, alertsR9Payload, 0⟩

/-- System_regions payload defining no regions. -/
def regionsEmptyPayload : RawPayload := .systemRegions ⟨[]⟩

/-- Snapshot of an empty system_regions feed. -/
def regionsSnapshotEmpty : Snapshot := ⟨100, 60, 100, regionsEmptyPayload, 0⟩

/-- Store holding the snapshots of the dangling-reference scenarios. -/
def sampleStore : Store := fun ft =>
  match ft with
  | .stationStatus => some statusSnapshotS1
  | .stationInformation => some infoSnapshotEmpty
  | .systemAlerts => some alertsSnapshotR9
  | .systemRegions => some regionsSnapshotEmpty
  | _ => none

/-- Accepted station_status payload whose only id contains a space. -/
def spaceIdPayload : RawPayload :=
  .stationStatus ⟨[sampleStationStatus "id A"]⟩

/-- A list has no duplicated element exactly when `dups` finds none. -/
theorem dups_eq_nil_iff {α : Type} [DecidableEq α] (l : List α) :
    dups l = [] ↔ l.Nodup := by
  unfold dups
  rw [List.dedup_eq_nil, List.filter_eq_nil_iff, List.nodup_iff_count_le_one]
  constructor
  · intro h a
    by_cases ha : a ∈ l
    · have := h a ha
      simp only [decide_eq_true_eq] at this
      omega
    · simp [List.count_eq_zero_of_not_mem ha]
  · intro h a ha
    simp only [decide_eq_true_eq, not_lt]
    exact h a

/-- Membership in `dups` means membership with multiplicity above one. -/
theorem mem_dups_iff {α : Type} [DecidableEq α] {l : List α} {a : α} :
    a ∈ dups l ↔ a ∈ l ∧ 1 < l.count a := by
  unfold dups
  rw [List.mem_dedup, List.mem_filter]
  simp

/-- Acceptance unfolded: no hard violation survives the filter. -/
theorem accepted_iff {ft : FeedType} {raw : RawPayload} :
    accepted ft raw = true ↔ (validate ft raw).filter Violation.isHard = [] := by
  unfold accepted
  rw [List.isEmpty_iff]

/-- An accepted payload matches the requested feed kind. -/
theorem accepted_feedType {ft : FeedType} {raw : RawPayload}
    (h : accepted ft raw = true) : raw.feedType = ft := by
  by_contra hne
  rw [accepted_iff] at h
  unfold validate at h
  rw [if_neg hne] at h
  simp [Violation.isHard] at h

/-- An accepted payload carries no hard domain violation. -/
theorem accepted_validateData {ft : FeedType} {raw : RawPayload}
    (h : accepted ft raw = true) :
    (validateData raw).filter Violation.isHard = [] := by
  have hft := accepted_feedType h
  rw [accepted_iff] at h
  unfold validate at h
  rwa [if_pos hft] at h

/-- Every violation collected on an accepted payload is soft. -/
theorem accepted_no_hard {ft : FeedType} {raw : RawPayload}
    (h : accepted ft raw = true) :
    ∀ v ∈ validateData raw, v.isHard = false := by
  have h2 := accepted_validateData h
  rw [List.filter_eq_nil_iff] at h2
  intro v hv
  simpa using h2 v hv

/-- Softness transfers along list inclusion. -/
theorem no_hard_sub {big sub : List Violation}
    (hall : ∀ v ∈ big, v.isHard = false) (hsub : ∀ v ∈ sub, v ∈ big) :
    ∀ v ∈ sub, v.isHard = false :=
  fun v hv => hall v (hsub v hv)

/-- The duplicate-id violations vanish exactly when the ids are distinct. -/
theorem dupIdViolations_filter_eq_nil_iff (ids : List String) :
    (dupIdViolations ids).filter Violation.isHard = [] ↔ ids.Nodup := by
  unfold dupIdViolations
  constructor
  · intro h
    rw [← dups_eq_nil_iff]
    rw [List.filter_eq_nil_iff] at h
    by_contra hne
    obtain ⟨a, ha⟩ := List.exists_mem_of_ne_nil _ hne
    have := h (Violation.duplicateId a) (List.mem_map_of_mem _ ha)
    simp [Violation.isHard] at this
  · intro h
    rw [← dups_eq_nil_iff] at h
    simp [h]

/-- If the bit checks of a field are all soft, the raw value is 0 or 1. -/
theorem bit_ok_of_no_hard {field : String} {v : Int}
    (h : ∀ w ∈ checkBit field v, w.isHard = false) : v = 0 ∨ v = 1 := by
  by_contra hc
  have := h (.bitOutOfRange field v) (by simp [checkBit, hc])
  simp [Violation.isHard] at this

/-- If the latitude checks are all soft, the value lies in [-90, 90]. -/
theorem lat_ok_of_no_hard {v : Rat}
    (h : ∀ w ∈ checkLat v, w.isHard = false) : -90 ≤ v ∧ v ≤ 90 := by
  by_contra hc
  have := h (.latOutOfRange v) (by simp [checkLat, hc])
  simp [Violation.isHard] at this

/-- If the longitude checks are all soft, the value lies in [-180, 180]. -/
theorem lon_ok_of_no_hard {v : Rat}
    (h : ∀ w ∈ checkLon v, w.isHard = false) : -180 ≤ v ∧ v ≤ 180 := by
  by_contra hc
  have := h (.lonOutOfRange v) (by simp [checkLon, hc])
  simp [Violation.isHard] at this

/-- When the flattened coverage list has no duplicate pair, at most one
entry covers any given pair. -/
theorem entriesCovering_le_one (hs : List SystemHours) (p : String × String)
    (hnd : (hs.flatMap entryPairs).Nodup) : entriesCovering hs p ≤ 1 := by
  induction hs with
  | nil => simp [entriesCovering]
  | cons e t ih =>
    rw [List.flatMap_cons, List.nodup_append] at hnd
    obtain ⟨h1, h2, hdisj⟩ := hnd
    simp only [entriesCovering, List.filter_cons]
    by_cases hp : p ∈ entryPairs e
    · rw [if_pos (by simpa using hp)]
      simp only [List.length_cons]
      have hz : (t.filter (fun h => decide (p ∈ entryPairs h))).length = 0 := by
        rw [List.length_eq_zero, List.filter_eq_nil_iff]
        intro e2 he2
        simp only [decide_eq_true_eq]
        intro hpe2
        exact hdisj hp (List.mem_flatMap.mpr ⟨e2, he2, hpe2⟩)
      omega
    · rw [if_neg (by simpa using hp)]
      exact ih h2

/-- Pair multiplicity through the default product instance agrees with the
explicit equality count. -/
theorem count_pair_eq_countP (l : List (String × String))
    (p : String × String) :
    l.count p = l.countP (fun q => decide (q = p)) := by
  induction l with
  | nil => rfl
  | cons a t ih =>
    rw [List.count_cons, List.countP_cons, ih]
    by_cases h : a = p <;> simp [h]

/-- Pair multiplicity through the decidable-equality instance agrees with
the explicit equality count. -/
theorem count_dec_eq_countP {α : Type} [DecidableEq α] (l : List α) (a : α) :
    l.count a = l.countP (fun b => decide (b = a)) := rfl

/-- One refresh cycle never decreases the exposed last_updated. -/
theorem feedStep_mono (ft : FeedType) (snap : Snapshot) (e : CycleEvent) :
    ∃ snap2, (feedStep ft (some snap) e).snapshot = some snap2 ∧
      snap.last_updated ≤ snap2.last_updated := by
  match e with
  | .fetchFailure => exact ⟨snap, rfl, le_refl _⟩
  | .fetchSuccess env =>
    simp only [feedStep]
    by_cases ha : accepted ft env.data
    · rw [if_pos ha]
      by_cases hlt : env.last_updated < snap.last_updated
      · rw [if_pos hlt]
        exact ⟨snap, rfl, le_refl _⟩
      · rw [if_neg hlt]
        exact ⟨Snapshot.ofEnvelope env, rfl, le_of_not_lt hlt⟩
    · rw [if_neg ha]
      exact ⟨snap, rfl, le_refl _⟩

/-- Across any sequence of refresh cycles the exposed last_updated is
non-decreasing. -/
theorem feedRun_mono (es : List CycleEvent) (ft : FeedType)
    (snap snap2 : Snapshot) (h : feedRun ft (some snap) es = some snap2) :
    snap.last_updated ≤ snap2.last_updated := by
  induction es generalizing snap with
  | nil =>
    simp only [feedRun] at h
    cases h
    exact le_refl _
  | cons e es ih =>
    simp only [feedRun] at h
    obtain ⟨snap1, hs, hle⟩ := feedStep_mono ft snap e
    rw [hs] at h
    exact le_trans hle (ih snap1 h)

/-- Only station_information and system_regions define ids that other
feeds reference; against any other feed the reference list is empty. -/
theorem refsTo_eq_nil {dft : FeedType} (p : RawPayload)
    (h1 : dft ≠ FeedType.stationInformation)
    (h2 : dft ≠ FeedType.systemRegions) :
    refsTo dft p = [] := by
  cases dft <;> cases p <;>
    first
      | rfl
      | exact absurd rfl h1
      | exact absurd rfl h2

/-- C1: for every feed type, if the fetch or the validation of a cycle
fails, the store afterwards still exposes exactly the snapshot produced by
the previous cycle, unchanged; once a first snapshot exists the store never
regresses to an empty state. -/
theorem c1_failure_retains_snapshot :
    (∀ (ft : FeedType) (cur : Option Snapshot),
       (feedStep ft cur .fetchFailure).snapshot = cur) ∧
    (∀ (ft : FeedType) (cur : Option Snapshot) (env : FeedEnvelope),
       accepted ft env.data = false →
       (feedStep ft cur (.fetchSuccess env)).snapshot = cur) ∧
    (∀ (ft : FeedType) (cur : Option Snapshot) (e : CycleEvent),
       cur.isSome = true → ((feedStep ft cur e).snapshot).isSome = true) := by
  refine ⟨fun ft cur => rfl, fun ft cur env h => by simp [feedStep, h], ?_⟩
  intro ft cur e h
  match e with
  | .fetchFailure => exact h
  | .fetchSuccess env =>
    match cur with
    | none => simp at h
    | some snap =>
      obtain ⟨snap2, hs, _⟩ := feedStep_mono ft snap (.fetchSuccess env)
      rw [hs]
      rfl

/-- Witness for C1 at a concrete rejected cycle and a concrete store. -/
theorem c1_witness :
    accepted FeedType.stationStatus dupStationEnvelope.data = false ∧
    (feedStep .stationStatus (some sampleSnapshot)
       (.fetchSuccess dupStationEnvelope)).snapshot = some sampleSnapshot ∧
    ((feedStep .stationStatus (some sampleSnapshot)
       .fetchFailure).snapshot).isSome = true :=
  ⟨by decide,
   c1_failure_retains_snapshot.2.1 _ _ _ (by decide),
   c1_failure_retains_snapshot.2.2 _ _ _ (by decide)⟩

/-- C2: every accepted snapshot's record identifiers are pairwise distinct
within its array, and the spec scenario — a station_status payload with two
entries both station_id "A" — yields the hard violation duplicateId "A"
while the prior snapshot is retained. -/
theorem c2_accepted_ids_unique :
    (∀ (ft : FeedType) (raw : RawPayload),
       accepted ft raw = true → raw.ids.Nodup) ∧
    (Violation.duplicateId "A" ∈ validate .stationStatus dupStationPayload ∧
     (Violation.duplicateId "A").isHard = true ∧
     ∀ cur : Option Snapshot,
       (feedStep .stationStatus cur
         (.fetchSuccess dupStationEnvelope)).snapshot = cur) := by
  constructor
  · intro ft raw h
    have hd := accepted_validateData h
    match raw with
    | .systemInformation d => simp [RawPayload.ids]
    | .systemHours d => simp [RawPayload.ids]
    | .systemCalendar d => simp [RawPayload.ids]
    | .stationInformation d =>
      simp only [validateData, List.filter_append, List.append_eq_nil] at hd
      simpa only [RawPayload.ids] using
        (dupIdViolations_filter_eq_nil_iff _).mp hd.1
    | .stationStatus d =>
      simp only [validateData, List.filter_append, List.append_eq_nil] at hd
      simpa only [RawPayload.ids] using
        (dupIdViolations_filter_eq_nil_iff _).mp hd.1
    | .freeBikeStatus d =>
      simp only [validateData, List.filter_append, List.append_eq_nil] at hd
      simpa only [RawPayload.ids] using
        (dupIdViolations_filter_eq_nil_iff _).mp hd.1
    | .systemRegions d =>
      simpa only [RawPayload.ids] using
        (dupIdViolations_filter_eq_nil_iff _).mp hd
    | .systemPricingPlans d =>
      simp only [validateData, List.filter_append, List.append_eq_nil] at hd
      simpa only [RawPayload.ids] using
        (dupIdViolations_filter_eq_nil_iff _).mp hd.1
    | .systemAlerts d =>
      simp only [validateData, List.filter_append, List.append_eq_nil] at hd
      simpa only [RawPayload.ids] using
        (dupIdViolations_filter_eq_nil_iff _).mp hd.1
  · refine ⟨by decide, by decide, ?_⟩
    intro cur
    have hrej : accepted FeedType.stationStatus dupStationEnvelope.data = false := by
      decide
    simp [feedStep, hrej]

/-- Witness for C2 at a concrete accepted payload. -/
theorem c2_witness :
    accepted FeedType.stationStatus okStationPayload = true ∧
    okStationPayload.ids.Nodup :=
  ⟨by decide, c2_accepted_ids_unique.1 .stationStatus okStationPayload (by decide)⟩

/-- C3: once a snapshot with a given last_updated is published, every
snapshot subsequently exposed for that feed has a last_updated at least as
large; an accepted envelope whose last_updated decreases is logged as an
anomaly and the previous snapshot is retained, never crashing the store. -/
theorem c3_last_updated_monotone :
    (∀ (ft : FeedType) (snap : Snapshot) (es : List CycleEvent)
       (snap2 : Snapshot),
       feedRun ft (some snap) es = some snap2 →
       snap.last_updated ≤ snap2.last_updated) ∧
    (∀ (ft : FeedType) (snap : Snapshot) (env : FeedEnvelope),
       accepted ft env.data = true →
       env.last_updated < snap.last_updated →
       (feedStep ft (some snap) (.fetchSuccess env)).snapshot = some snap ∧
       (feedStep ft (some snap) (.fetchSuccess env)).anomalies =
         [.lastUpdatedDecreased snap.last_updated env.last_updated]) := by
  constructor
  · intro ft snap es snap2 h
    exact feedRun_mono es ft snap snap2 h
  · intro ft snap env ha hlt
    constructor <;> simp [feedStep, ha, hlt]

/-- Witness for C3 at a concrete run and a concrete decreasing envelope. -/
theorem c3_witness :
    lateSnapshot.last_updated ≤ lateSnapshot.last_updated ∧
    (feedStep .stationStatus (some lateSnapshot)
       (.fetchSuccess okStationEnvelope)).snapshot = some lateSnapshot ∧
    (feedStep .stationStatus (some lateSnapshot)
       (.fetchSuccess okStationEnvelope)).anomalies =
      [.lastUpdatedDecreased lateSnapshot.last_updated
        okStationEnvelope.last_updated] :=
  ⟨c3_last_updated_monotone.1 .stationStatus lateSnapshot [.fetchFailure]
     lateSnapshot rfl,
   (c3_last_updated_monotone.2 .stationStatus lateSnapshot okStationEnvelope
     (by decide) (by decide)).1,
   (c3_last_updated_monotone.2 .stationStatus lateSnapshot okStationEnvelope
     (by decide) (by decide)).2⟩

/-- C7: with ttl = 0 the scheduler begins the next fetch immediately after
the completed cycle, with zero wait; with positive ttl the next fetch is
scheduled at fetched_at + ttl. -/
theorem c7_ttl_schedule :
    ∀ fetchedAt ttl : Int,
      (ttl = 0 →
        nextFetchTime fetchedAt ttl = fetchedAt ∧
        waitAfterCycle fetchedAt ttl = 0) ∧
      (0 < ttl → nextFetchTime fetchedAt ttl = fetchedAt + ttl) := by
  intro fa t
  constructor
  · rintro rfl
    constructor <;> simp [nextFetchTime, waitAfterCycle]
  · intro _
    rfl

/-- Witness for C7 at ttl 0 and ttl 30. -/
theorem c7_witness :
    nextFetchTime 1000 0 = 1000 ∧ waitAfterCycle 1000 0 = 0 ∧
    nextFetchTime 1000 30 = 1030 :=
  ⟨((c7_ttl_schedule 1000 0).1 rfl).1, ((c7_ttl_schedule 1000 0).1 rfl).2,
   by have h := (c7_ttl_schedule 1000 30).2 (by decide); omega⟩

/-- C9: validate is a deterministic function of its arguments — identical
raw input yields an identical violation list and an identical result. -/
theorem c9_validate_deterministic :
    ∀ (ft : FeedType) (r1 r2 : RawPayload), r1 = r2 →
      validate ft r1 = validate ft r2 ∧
      validateResult ft r1 = validateResult ft r2 := by
  intro ft r1 r2 h
  subst h
  exact ⟨rfl, rfl⟩

/-- Witness for C9 at a concrete payload. -/
theorem c9_witness :
    validate .stationStatus okStationPayload =
      validate .stationStatus okStationPayload ∧
    validateResult .stationStatus okStationPayload =
      validateResult .stationStatus okStationPayload :=
  c9_validate_deterministic _ okStationPayload okStationPayload rfl

/-- C4: a system_hours payload is accepted only if, for every
(day, user_type) pair, at most one entry across the entire rental_hours
array covers that pair; a pair covered twice — even by two different
entries — yields a hard duplicateHoursPair violation, cumulatively over the
whole array. -/
theorem c4_hours_pair_coverage :
    ∀ d : SystemHoursData,
      (accepted .systemHours (.systemHours d) = true →
        ∀ p : String × String, entriesCovering d.rental_hours p ≤ 1) ∧
      (∀ p : String × String,
        2 ≤ (allHoursPairs d.rental_hours).count p →
        Violation.duplicateHoursPair p.1 p.2 ∈
          validate .systemHours (.systemHours d) ∧
        (Violation.duplicateHoursPair p.1 p.2).isHard = true) := by
  intro d
  constructor
  · intro h p
    have hd := accepted_validateData h
    simp only [validateData, List.filter_append, List.append_eq_nil] at hd
    have hdups : dups (allHoursPairs d.rental_hours) = [] := by
      have h2 := hd.2
      rw [List.filter_eq_nil_iff] at h2
      by_contra hne
      obtain ⟨a, ha⟩ := List.exists_mem_of_ne_nil _ hne
      have := h2 _ (List.mem_map_of_mem _ ha)
      simp [Violation.isHard] at this
    exact entriesCovering_le_one _ p ((dups_eq_nil_iff _).mp hdups)
  · intro p hcnt
    rw [count_pair_eq_countP] at hcnt
    have hmem : p ∈ allHoursPairs d.rental_hours := by
      have hpos : 0 < (allHoursPairs d.rental_hours).countP
          (fun q => decide (q = p)) := by omega
      obtain ⟨q, hq, hqp⟩ := List.countP_pos_iff.mp hpos
      simp only [decide_eq_true_eq] at hqp
      rwa [← hqp]
    have hdup : p ∈ dups (allHoursPairs d.rental_hours) :=
      mem_dups_iff.mpr ⟨hmem, by rw [count_dec_eq_countP]; omega⟩
    refine ⟨?_, rfl⟩
    have hv : validate .systemHours (.systemHours d) =
        validateData (.systemHours d) := by
      simp [validate, RawPayload.feedType]
    rw [hv]
    simp only [validateData]
    exact List.mem_append_right _ (List.mem_map_of_mem _ hdup)

/-- Witness for C4 at a single-coverage payload and a double-coverage
payload. -/
theorem c4_witness :
    entriesCovering okHoursData.rental_hours ("mon", "member") ≤ 1 ∧
    2 ≤ (allHoursPairs dupHoursData.rental_hours).count ("mon", "member") ∧
    Violation.duplicateHoursPair "mon" "member" ∈
      validate .systemHours (.systemHours dupHoursData) :=
  ⟨(c4_hours_pair_coverage okHoursData).1 (by decide) ("mon", "member"),
   by decide,
   ((c4_hours_pair_coverage dupHoursData).2 ("mon", "member") (by decide)).1⟩

/-- C5: validate accepts a record only if every bit-valued field
(is_installed, is_renting, is_returning, is_reserved, is_disabled,
is_taxable) is 0 or 1, every latitude lies in [-90, 90] and every
longitude lies in [-180, 180]; any value outside these sets is a hard
violation rejecting the snapshot. -/
theorem c5_domain_ranges :
    ∀ (ss : StationStatusData) (fb : FreeBikeStatusData)
      (si : StationInformationData) (pp : SystemPricingPlansData),
      (accepted .stationStatus (.stationStatus ss) = true →
        ∀ s ∈ ss.stations,
          (s.is_installed = 0 ∨ s.is_installed = 1) ∧
          (s.is_renting = 0 ∨ s.is_renting = 1) ∧
          (s.is_returning = 0 ∨ s.is_returning = 1)) ∧
      (accepted .freeBikeStatus (.freeBikeStatus fb) = true →
        ∀ b ∈ fb.bikes,
          (-90 ≤ b.lat ∧ b.lat ≤ 90) ∧ (-180 ≤ b.lon ∧ b.lon ≤ 180) ∧
          (b.is_reserved = 0 ∨ b.is_reserved = 1) ∧
          (b.is_disabled = 0 ∨ b.is_disabled = 1)) ∧
      (accepted .stationInformation (.stationInformation si) = true →
        ∀ s ∈ si.stations,
          (-90 ≤ s.lat ∧ s.lat ≤ 90) ∧ (-180 ≤ s.lon ∧ s.lon ≤ 180)) ∧
      (accepted .systemPricingPlans (.systemPricingPlans pp) = true →
        ∀ p ∈ pp.plans, p.is_taxable = 0 ∨ p.is_taxable = 1) := by
  intro ss fb si pp
  refine ⟨?_, ?_, ?_, ?_⟩
  · intro h s hs
    have hall := accepted_no_hard h
    simp only [validateData] at hall
    have hsub : ∀ w ∈ checkBit "is_installed" s.is_installed ++
        checkBit "is_renting" s.is_renting ++
        checkBit "is_returning" s.is_returning, w.isHard = false := by
      refine no_hard_sub hall ?_
      intro w hw
      exact List.mem_append_right _ (List.mem_flatMap.mpr ⟨s, hs, hw⟩)
    exact ⟨bit_ok_of_no_hard
        (fun w hw => hsub w (List.mem_append_left _ (List.mem_append_left _ hw))),
      bit_ok_of_no_hard
        (fun w hw => hsub w (List.mem_append_left _ (List.mem_append_right _ hw))),
      bit_ok_of_no_hard (fun w hw => hsub w (List.mem_append_right _ hw))⟩
  · intro h b hb
    have hall := accepted_no_hard h
    simp only [validateData] at hall
    have hsub : ∀ w ∈ checkLat b.lat ++ checkLon b.lon ++
        checkBit "is_reserved" b.is_reserved ++
        checkBit "is_disabled" b.is_disabled, w.isHard = false := by
      refine no_hard_sub hall ?_
      intro w hw
      exact List.mem_append_right _ (List.mem_flatMap.mpr ⟨b, hb, hw⟩)
    exact ⟨lat_ok_of_no_hard (fun w hw => hsub w
        (List.mem_append_left _ (List.mem_append_left _ (List.mem_append_left _ hw)))),
      lon_ok_of_no_hard (fun w hw => hsub w
        (List.mem_append_left _ (List.mem_append_left _ (List.mem_append_right _ hw)))),
      bit_ok_of_no_hard (fun w hw => hsub w
        (List.mem_append_left _ (List.mem_append_right _ hw))),
      bit_ok_of_no_hard (fun w hw => hsub w (List.mem_append_right _ hw))⟩
  · intro h s hs
    have hall := accepted_no_hard h
    simp only [validateData] at hall
    have hsub : ∀ w ∈ checkLat s.lat ++ checkLon s.lon ++
        (match s.rental_methods with
         | none => []
         | some ms => ms.flatMap (checkEnum "rental_methods" rentalMethodStrings)),
        w.isHard = false := by
      refine no_hard_sub hall ?_
      intro w hw
      exact List.mem_append_right _ (List.mem_flatMap.mpr ⟨s, hs, hw⟩)
    exact ⟨lat_ok_of_no_hard (fun w hw => hsub w
        (List.mem_append_left _ (List.mem_append_left _ hw))),
      lon_ok_of_no_hard (fun w hw => hsub w
        (List.mem_append_left _ (List.mem_append_right _ hw)))⟩
  · intro h p hp
    have hall := accepted_no_hard h
    simp only [validateData] at hall
    have hsub : ∀ w ∈ checkBit "is_taxable" p.is_taxable, w.isHard = false := by
      refine no_hard_sub hall ?_
      intro w hw
      exact List.mem_append_right _ (List.mem_flatMap.mpr ⟨p, hp, hw⟩)
    exact bit_ok_of_no_hard hsub

/-- Witness for C5 at concrete accepted payloads of the four feed kinds. -/
theorem c5_witness :
    (((sampleStationStatus "A").is_installed = 0 ∨
        (sampleStationStatus "A").is_installed = 1) ∧
     ((sampleStationStatus "A").is_renting = 0 ∨
        (sampleStationStatus "A").is_renting = 1) ∧
     ((sampleStationStatus "A").is_returning = 0 ∨
        (sampleStationStatus "A").is_returning = 1)) ∧
    ((-90 ≤ okBike.lat ∧ okBike.lat ≤ 90) ∧
     (-180 ≤ okBike.lon ∧ okBike.lon ≤ 180) ∧
     (okBike.is_reserved = 0 ∨ okBike.is_reserved = 1) ∧
     (okBike.is_disabled = 0 ∨ okBike.is_disabled = 1)) ∧
    ((-90 ≤ okInfoStation.lat ∧ okInfoStation.lat ≤ 90) ∧
     (-180 ≤ okInfoStation.lon ∧ okInfoStation.lon ≤ 180)) ∧
    (okPlan.is_taxable = 0 ∨ okPlan.is_taxable = 1) := by
  obtain ⟨h1, h2, h3, h4⟩ := c5_domain_ranges
    ⟨[sampleStationStatus "A", sampleStationStatus "B"]⟩ ⟨[okBike]⟩
    ⟨[okInfoStation]⟩ ⟨[okPlan]⟩
  exact ⟨h1 (by decide) _ (by decide), h2 (by decide) _ (by decide),
    h3 (by decide) _ (by decide), h4 (by decide) _ (by decide)⟩

/-- C6: for every pair of referencing and defining feeds (station_status
and alert station_ids against station_information; station_information
region_id fields and alert region_ids against system_regions), when a
referenced id is absent from the defining feed's current snapshot,
CrossFeedLinker reports a dangling reference count of at least 1 in the
snapshot metadata while both feeds remain published; linking never rejects
or blocks publication of any feed. -/
theorem c6_dangling_references :
    ∀ (store : Store) (ft dft : FeedType) (snap dsnap : Snapshot)
      (sid : String),
      store ft = some snap →
      store dft = some dsnap →
      sid ∈ refsTo dft snap.data →
      sid ∉ definedIdsOf dft dsnap.data →
      (∃ snap2 : Snapshot, crossFeedLink store ft = some snap2 ∧
         1 ≤ snap2.danglingReferenceCount ∧ snap2.data = snap.data) ∧
      (∃ dsnap2 : Snapshot, crossFeedLink store dft = some dsnap2 ∧
         dsnap2.data = dsnap.data) ∧
      (∀ (ft2 : FeedType) (s : Snapshot), store ft2 = some s →
         ∃ s2 : Snapshot, crossFeedLink store ft2 = some s2 ∧
           s2.data = s.data ∧ s2.last_updated = s.last_updated ∧
           s2.ttl = s.ttl ∧ s2.fetched_at = s.fetched_at) := by
  intro store ft dft snap dsnap sid hft hdft hmem hnot
  have hpub : ∀ (ft2 : FeedType) (s : Snapshot), store ft2 = some s →
      ∃ s2 : Snapshot, crossFeedLink store ft2 = some s2 ∧
        s2.data = s.data ∧ s2.last_updated = s.last_updated ∧
        s2.ttl = s.ttl ∧ s2.fetched_at = s.fetched_at := by
    intro ft2 s hs
    exact ⟨{ s with danglingReferenceCount := danglingCount store ft2 },
      by simp [crossFeedLink, hs], rfl, rfl, rfl, rfl⟩
  have hagainst : 1 ≤ danglingAgainst store dft snap.data := by
    unfold danglingAgainst
    rw [hdft]
    have hm : sid ∈ missingRefs (refsTo dft snap.data)
        (definedIdsOf dft dsnap.data) := by
      unfold missingRefs
      rw [List.mem_filter]
      exact ⟨hmem, by simpa using hnot⟩
    exact List.length_pos_of_mem hm
  have hcount : 1 ≤ danglingCount store ft := by
    unfold danglingCount
    rw [hft]
    by_cases h1 : dft = FeedType.stationInformation
    · subst h1
      exact le_trans hagainst (Nat.le_add_right _ _)
    · by_cases h2 : dft = FeedType.systemRegions
      · subst h2
        exact le_trans hagainst (Nat.le_add_left _ _)
      · exfalso
        rw [refsTo_eq_nil snap.data h1 h2] at hmem
        simp at hmem
  refine ⟨?_, ?_, hpub⟩
  · exact ⟨{ snap with danglingReferenceCount := danglingCount store ft },
      by simp [crossFeedLink, hft], hcount, rfl⟩
  · exact ⟨{ dsnap with danglingReferenceCount := danglingCount store dft },
      by simp [crossFeedLink, hdft], rfl⟩

/-- Witness for C6 at the concrete scenario store, exercising both the
station_status to station_information pair (dangling "S1") and the
system_alerts to system_regions pair (dangling "R9"). -/
theorem c6_witness :
    ((∃ snap2 : Snapshot, crossFeedLink sampleStore .stationStatus = some snap2 ∧
        1 ≤ snap2.danglingReferenceCount ∧ snap2.data = statusSnapshotS1.data) ∧
     (∃ dsnap2 : Snapshot,
        crossFeedLink sampleStore .stationInformation = some dsnap2 ∧
        dsnap2.data = infoSnapshotEmpty.data) ∧
     (∀ (ft2 : FeedType) (s : Snapshot), sampleStore ft2 = some s →
        ∃ s2 : Snapshot, crossFeedLink sampleStore ft2 = some s2 ∧
          s2.data = s.data ∧ s2.last_updated = s.last_updated ∧
          s2.ttl = s.ttl ∧ s2.fetched_at = s.fetched_at)) ∧
    ((∃ snap2 : Snapshot, crossFeedLink sampleStore .systemAlerts = some snap2 ∧
        1 ≤ snap2.danglingReferenceCount ∧ snap2.data = alertsSnapshotR9.data) ∧
     (∃ dsnap2 : Snapshot,
        crossFeedLink sampleStore .systemRegions = some dsnap2 ∧
        dsnap2.data = regionsSnapshotEmpty.data) ∧
     (∀ (ft2 : FeedType) (s : Snapshot), sampleStore ft2 = some s →
        ∃ s2 : Snapshot, crossFeedLink sampleStore ft2 = some s2 ∧
          s2.data = s.data ∧ s2.last_updated = s.last_updated ∧
          s2.ttl = s.ttl ∧ s2.fetched_at = s.fetched_at)) :=
  ⟨c6_dangling_references sampleStore .stationStatus .stationInformation
     statusSnapshotS1 infoSnapshotEmpty "S1" rfl rfl (by decide) (by decide),
   c6_dangling_references sampleStore .systemAlerts .systemRegions
     alertsSnapshotR9 regionsSnapshotEmpty "R9" rfl rfl (by decide) (by decide)⟩

/-- C8: the feed kinds are exactly the nine declared names, every feed body
carries exactly the common envelope of last_updated (integer POSIX
timestamp), ttl and data, and the auto-discovery root maps each language
tag to a value holding a feeds array of (name, url) descriptors. -/
theorem c8_wire_format :
    allFeedTypes.map FeedType.name =
      ["system_information", "station_information", "station_status",
       "free_bike_status", "system_hours", "system_calendar",
       "system_regions", "system_pricing_plans", "system_alerts"] ∧
    (∀ ft : FeedType, ft ∈ allFeedTypes) ∧
    (allFeedTypes.map FeedType.name).Nodup ∧
    Timestamp = Int ∧
    (∀ (T : Type) (a b : File T),
       a.last_updated = b.last_updated → a.ttl = b.ttl → a.data = b.data →
       a = b) ∧
    (∀ (d : AutoDiscoveryData) (e : String × LanguageData), e ∈ d →
       ∃ feeds : List Feed, e.2 = ⟨feeds⟩) := by
  refine ⟨by decide, ?_, by decide, rfl, ?_, ?_⟩
  · intro ft
    cases ft <;> simp [allFeedTypes]
  · intro T a b h1 h2 h3
    cases a
    cases b
    simp_all
  · intro d e he
    exact ⟨e.2.feeds, rfl⟩

/-- Witness for C8 at a concrete envelope and a concrete root entry. -/
theorem c8_witness :
    (⟨5, 60, 0⟩ : File Int) = ⟨5, 60, 0⟩ ∧
    ∃ feeds : List Feed,
      (("en", (⟨[]⟩ : LanguageData)) : String × LanguageData).2 = ⟨feeds⟩ :=
  ⟨c8_wire_format.2.2.2.2.1 Int ⟨5, 60, 0⟩ ⟨5, 60, 0⟩ rfl rfl rfl,
   c8_wire_format.2.2.2.2.2 [("en", ⟨[]⟩)] ("en", ⟨[]⟩) (by simp)⟩

/-- C10 (counterexample): the accepted station_status payload
`spaceIdPayload` carries the identifier "id A", which contains a space, so
validated data is not guaranteed to be free of spaces in its id fields. -/
theorem c10_counterexample :
    accepted FeedType.stationStatus spaceIdPayload = true ∧
    "id A" ∈ spaceIdPayload.ids ∧
    containsSpace "id A" = true :=
  ⟨by decide, by decide, by decide⟩

/-- C10 (amended): identifier fields in validated data are plain strings;
the StringID contract documents that ids must not contain spaces, but the
validator does not enforce this, so an accepted snapshot may carry an
identifier containing a space. -/
theorem c10_space_ids_not_enforced :
    ∃ raw : RawPayload, accepted raw.feedType raw = true ∧
      ∃ id ∈ raw.ids, containsSpace id = true :=
  ⟨spaceIdPayload, by decide, "id A", by decide, by decide⟩

end GBFS
